import Mathlib

/-!
Verification model of `mixer/blender_data/armature_proxy.py`.

The file shallowly embeds the `ArmatureProxy` specialization: the host state is
a `World` (scene objects, armature datablocks, the view layer's active object,
the class-level `ArmatureProxy._edit_bones_map` cache, and the log), and each
lifecycle operation of the proxy is a function on `World`.  External
collaborators (the generic `DatablockProxy` base-class algorithms, the
`_pre_save` hook, the generic `write_attribute` path) are not part of the
source file; they are modelled from the specification's description of their
interfaces, and failure points inside them are exposed as boolean oracles so
that both the success and the failure path of the surrounding code can be
examined.
-/

namespace Mixer

/-- Attribute values: ordinary attribute payloads and the gated region
(`edit_bones`, a sequence of bone records) are both modelled as lists of
abstract records. -/
abbrev Val := List Nat

/-- Association-list lookup, first binding wins (models Python dict lookup and
`dict.get`). -/
def getAssoc (l : List (String × Val)) (k : String) : Option Val :=
  match l with
  | [] => none
  | kv :: rest => if kv.1 == k then some kv.2 else getAssoc rest k

/-- Association-list update, replacing the first binding of the key or
appending a fresh one (models Python dict assignment, last write wins). -/
def setAssoc (l : List (String × Val)) (k : String) (v : Val) : List (String × Val) :=
  match l with
  | [] => [(k, v)]
  | kv :: rest => if kv.1 == k then (k, v) :: rest else kv :: setAssoc rest k v

/-- Association-list removal of every binding of the key (models Python
`del d[k]`; an actual dict holds at most one binding per key). -/
def delAssoc (l : List (String × Val)) (k : String) : List (String × Val) :=
  l.filter (fun kv => kv.1 != k)

/-- An Armature datablock: stable identity token (`mixer_uuid`), ordinary
attributes, and the mode-gated region `edit_bones`. -/
structure Armature where
  mixer_uuid : String
  attrs : List (String × Val)
  edit_bones : Val
deriving DecidableEq, Repr

/-- A scene object (an element of `bpy.data.objects`).  `data = some u` means
the object's data is the Armature datablock with identity `u` (covering both
the `obj.data == datablock` comparison and `isinstance(obj.data, T.Armature)`);
`data = none` means the object's data is not an Armature.  `mode` is the
object's interaction mode (`"OBJECT"`, `"EDIT"`, `"POSE"`, ...). -/
structure BObj where
  name : String
  data : Option String
  mode : String
deriving DecidableEq, Repr

/-- The observable host state: scene objects, armature datablocks, the view
layer's active object (by name), the class-level
`ArmatureProxy._edit_bones_map`, and the log. -/
structure World where
  objects : List BObj
  armatures : List Armature
  active : Option String
  edit_bones_map : List (String × Val)
  log : List String
deriving DecidableEq, Repr

/-- Object lookup by name. -/
def World.findObj (w : World) (n : String) : Option BObj :=
  w.objects.find? (fun o => o.name == n)

/-- Armature datablock lookup by identity token. -/
def World.findArm (w : World) (u : String) : Option Armature :=
  w.armatures.find? (fun a => a.mixer_uuid == u)

/-- Sets the interaction mode of the named object. -/
def World.setMode (w : World) (n : String) (m : String) : World :=
  { w with objects := w.objects.map (fun o => if o.name == n then { o with mode := m } else o) }

/-- The active object of the view layer (`bpy.context.view_layer.objects.active`). -/
def World.activeObj (w : World) : Option BObj :=
  w.active.bind w.findObj

/-- The mode of the named object, when the object exists. -/
def World.getMode (w : World) (n : String) : Option String :=
  (w.findObj n).map (fun o => o.mode)

/-- The context mode (`bpy.context.mode`): the mode of the active object, and
the baseline `"OBJECT"` when there is none. -/
def World.contextMode (w : World) : String :=
  ((w.activeObj).map (fun o => o.mode)).getD "OBJECT"

/-- `bpy.ops.object.mode_set(mode=m)` without a context override: acts on the
active object of the view layer. -/
def World.modeSetActive (w : World) (m : String) : World :=
  match w.active with
  | some n => w.setMode n m
  | none => w

/-- Sets the active object of the view layer
(`bpy.context.view_layer.objects.active = obj`). -/
def World.setActive (w : World) (n : Option String) : World :=
  { w with active := n }

/-- The relevant members of a copied context override dict: the overridable
active object and the recorded context mode.  Window, screen and area members
play no role in this model (a VIEW_3D area is assumed to exist, so
`override_context` in the source does not return `None`). -/
structure Ctx where
  active_object : Option String
  mode : String
deriving DecidableEq, Repr

/-- Source `override_context()`: a copy of the current context.  The copied
`"mode"` member is the context mode at copy time; a later assignment to the
dict's `"active_object"` member does not update it. -/
def override_context (w : World) : Ctx :=
  { active_object := w.active, mode := w.contextMode }

/-- `bpy.ops.object.mode_set(ctx, mode=m)` with a context override: acts on the
override's active object, leaving the view layer's actual active object
unchanged. -/
def modeSetCtx (w : World) (ctx : Ctx) (m : String) : World :=
  match ctx.active_object with
  | some n => w.setMode n m
  | none => w

/-- Modelled from the spec: the external generic attribute-write path
(`write_attribute` from `mixer.blender_data.attributes`, not part of the
source file): writes one named attribute of the datablock; the name
`"edit_bones"` addresses the gated region. -/
def write_attribute (w : World) (u : String) (k : String) (v : Val) : World :=
  { w with armatures := w.armatures.map (fun a =>
      if a.mixer_uuid == u then
        if k == "edit_bones" then { a with edit_bones := v }
        else { a with attrs := setAssoc a.attrs k v }
      else a) }

/-- Modelled from the spec: the live gated region is observable only under the
gated mode — reading `edit_bones` yields the bone records while the object
editing the armature is in EDIT mode, and an empty collection otherwise. -/
def liveEditBones (w : World) (a : Armature) : Val :=
  match w.objects.find? (fun o => o.data == some a.mixer_uuid) with
  | some o => if o.mode == "EDIT" then a.edit_bones else []
  | none => []

/-- The synchronization proxy for an Armature datablock: its captured
attribute map `_data` (custom-property overlay is external and unmodelled). -/
structure ArmatureProxy where
  _data : List (String × Val)
deriving DecidableEq, Repr

/-- A Delta addressing one attribute by name, carrying the value the target
must come to match. -/
structure Delta where
  key : String
  value : Val
deriving DecidableEq, Repr

/-- Decidable equality of operation results, so that claims can be evaluated
on concrete inputs. -/
instance {α β : Type} [DecidableEq α] [DecidableEq β] : DecidableEq (Except α β) := fun x y =>
  match x, y with
  | Except.ok a, Except.ok b =>
    if h : a = b then isTrue (by rw [h]) else isFalse (fun hh => h (by cases hh; rfl))
  | Except.error a, Except.error b =>
    if h : a = b then isTrue (by rw [h]) else isFalse (fun hh => h (by cases hh; rfl))
  | Except.ok _, Except.error _ => isFalse (fun hh => Except.noConfusion hh)
  | Except.error _, Except.ok _ => isFalse (fun hh => Except.noConfusion hh)

/-- Result of `_save`: either the updated datablock or the Python
`None, None` sentinel pair produced when the pre-save hook rejects. -/
inductive SaveResult where
  | ok (u : String)
  | sentinel
deriving DecidableEq, Repr

/-- Source `ArmatureProxy.find_armature_parent_object`: the first scene object
whose data is the given datablock. -/
def find_armature_parent_object (w : World) (u : String) : Option BObj :=
  w.objects.find? (fun o => o.data == some u)

/-- Modelled from the spec: the generic base-class `DatablockProxy.load` (not
part of the source file) captures the document object's attributes into the
proxy: the gated region separately via the live (mode-dependent) read, and
every ordinary attribute via the external Attribute Proxy. -/
def baseLoad (w : World) (a : Armature) (p : ArmatureProxy) : ArmatureProxy :=
  { p with _data := ("edit_bones", liveEditBones w a) :: a.attrs }

/-- Modelled from the spec: the generic base-class `DatablockProxy._diff` (not
part of the source file) is a read-only comparison between the proxy's
captured value and the document's live value at one addressed attribute,
returning `none` when no difference is detected and a Delta otherwise. -/
def baseDiff (w : World) (a : Armature) (p : ArmatureProxy) (key : String) : Option Delta :=
  let live := if key == "edit_bones" then liveEditBones w a else (getAssoc a.attrs key).getD []
  if getAssoc p._data key == some live then none else some { key := key, value := live }

/-- Modelled from the spec: the generic base-class `DatablockProxy.apply` (not
part of the source file) applies the Delta so the target matches it: it
updates the addressed attribute of the proxy and, when `to_blender` is set,
writes the attribute to the document. -/
def baseApply (w : World) (p : ArmatureProxy) (u : String) (delta : Delta)
    (to_blender : Bool) : World × ArmatureProxy :=
  let p1 : ArmatureProxy := { _data := setAssoc p._data delta.key delta.value }
  let w1 := if to_blender then write_attribute w u delta.key delta.value else w
  (w1, p1)

/-- Source `ArmatureProxy.load`.  `a` is the Armature datablock; `bodyFails`
models the delegated `super().load` raising, and the `Except.error` value
carries the world state in which the exception propagates.  The source has no
try/finally: the two `mode_set` calls bracket the body on the straight-line
path only. -/
def ArmatureProxy.load (w : World) (p : ArmatureProxy) (a : Armature)
    (bodyFails : Bool) : Except World (World × ArmatureProxy) :=
  match find_armature_parent_object w a.mixer_uuid with
  | none => Except.ok (w, p)
  | some obj =>
    let ctx : Ctx := { override_context w with active_object := some obj.name }
    let previous_mode := ctx.mode
    let w1 := modeSetCtx w ctx "EDIT"
    if bodyFails then Except.error w1
    else
      let p1 := baseLoad w1 a p
      let w2 := modeSetCtx w1 ctx previous_mode
      Except.ok (w2, p1)

/-- Source `ArmatureProxy._diff`.  `bodyFails` models the delegated
`super()._diff` raising; the `Except.error` value carries the world in which
the exception propagates (also covering the attribute errors raised when the
view layer has no active object or no parent object is found, since
`prev_active.mode` and `obj.mode` are read on possibly-`None` values). -/
def ArmatureProxy._diff (w : World) (p : ArmatureProxy) (a : Armature)
    (key : String) (bodyFails : Bool) : Except World (World × Option Delta) :=
  match w.activeObj with
  | none => Except.error w
  | some prev_active =>
    let prev_active_mode := prev_active.mode
    match find_armature_parent_object w a.mixer_uuid with
    | none => Except.error (w.setActive none)
    | some obj =>
      let w1 := w.setActive (some obj.name)
      let prev_obj_mode := obj.mode
      let w2 := w1.modeSetActive "EDIT"
      if bodyFails then Except.error w2
      else
        let res := baseDiff w2 a p key
        let w3 := w2.modeSetActive prev_obj_mode
        let w4 := w3.setActive w.active
        let w5 := w4.modeSetActive prev_active_mode
        Except.ok (w5, res)

/-- Source `ArmatureProxy.apply`.  `u` is the identity of the Armature passed
as `attribute`; `parent`, `key` and `context` play no role in this model (the
source only asserts that `key` is a string).  `bodyFails` models the delegated
`super().apply` raising; the `Except.error` value carries the world in which
the exception propagates. -/
def ArmatureProxy.apply (w : World) (p : ArmatureProxy) (u : String)
    (delta : Delta) (to_blender : Bool) (bodyFails : Bool) :
    Except World (World × ArmatureProxy) :=
  match w.activeObj with
  | none => Except.error w
  | some prev_active =>
    let prev_active_mode := prev_active.mode
    match find_armature_parent_object w u with
    | none => Except.error (w.setActive none)
    | some obj =>
      let w1 := w.setActive (some obj.name)
      let prev_obj_mode := obj.mode
      let w2 := w1.modeSetActive "EDIT"
      if bodyFails then Except.error w2
      else
        let wp := baseApply w2 p u delta to_blender
        let w3 := wp.1.modeSetActive prev_obj_mode
        let w4 := w3.setActive w.active
        let w5 := w4.modeSetActive prev_active_mode
        Except.ok (w5, wp.2)

/-- Source `ArmatureProxy._save`.  `preSave` models the external
`DatablockProxy._pre_save` hook (not part of the source file): `none` means
the hook rejected the save, `some u` is the resulting datablock.  The
`visit_state.enter_datablock` context manager and the custom-property
persistence are external and have no effect on this model's state. -/
def ArmatureProxy._save (w : World) (p : ArmatureProxy) (preSave : Option String) :
    World × SaveResult :=
  match preSave with
  | none =>
    ({ w with log := w.log ++ ["pre_save returns None"] }, SaveResult.sentinel)
  | some u =>
    let w1 := p._data.foldl (fun wacc kv =>
        if kv.1 != "edit_bones" then write_attribute wacc u kv.1 kv.2
        else { wacc with edit_bones_map := setAssoc wacc.edit_bones_map u kv.2 }) w
    (w1, SaveResult.ok u)

/-- The step function of the write-back fold in `_save`, named so the fold can
be reasoned about; `ArmatureProxy._save` reduces to a fold of this step by
definitional unfolding. -/
def saveStep (u : String) (wacc : World) (kv : String × Val) : World :=
  if kv.1 != "edit_bones" then write_attribute wacc u kv.1 kv.2
  else { wacc with edit_bones_map := setAssoc wacc.edit_bones_map u kv.2 }

/-- Reads one ordinary attribute of the armature datablock `u`. -/
def getAttr (w : World) (u k : String) : Option Val :=
  (w.findArm u).bind (fun a => getAssoc a.attrs k)

/-- Source `ArmatureProxy.apply_edit_bones`.  `writeFails` models the
`write_attribute` call inside the try block raising (the `except` clause
swallows it without logging).  The `unresolved_refs.resolve` call is external
bookkeeping with no effect on this model's state. -/
def ArmatureProxy.apply_edit_bones (w : World) (obj : BObj) (writeFails : Bool) : World :=
  match obj.data with
  | none => w
  | some u =>
    match getAssoc w.edit_bones_map u with
    | none => { w with log := w.log ++ ["No edit bones found"] }
    | some edit_bones =>
      if edit_bones.length == 0 then w
      else
        let w1 := if w.contextMode != "OBJECT" then w.modeSetActive "OBJECT" else w
        let w2 := w1.setActive (some obj.name)
        let w3 := w2.modeSetActive "EDIT"
        let w4 := if writeFails then w3 else write_attribute w3 u "edit_bones" edit_bones
        let w5 := { w4 with edit_bones_map := delAssoc w4.edit_bones_map u }
        w5.modeSetActive "OBJECT"

/-! Basic association-list lemmas. -/

theorem getAssoc_setAssoc_self (l : List (String × Val)) (k : String) (v : Val) :
    getAssoc (setAssoc l k v) k = some v := by
  induction l with
  | nil => simp [setAssoc, getAssoc]
  | cons kv rest ih =>
    by_cases h : kv.1 = k
    · simp [setAssoc, getAssoc, h]
    · simp [setAssoc, getAssoc, h, ih]

theorem getAssoc_setAssoc_ne (l : List (String × Val)) (k k' : String) (v : Val)
    (h : k' ≠ k) : getAssoc (setAssoc l k v) k' = getAssoc l k' := by
  have hne : ¬ (k = k') := fun hh => h hh.symm
  induction l with
  | nil => simp [setAssoc, getAssoc, hne]
  | cons kv rest ih =>
    by_cases hk : kv.1 = k
    · have hk' : ¬ (kv.1 = k') := by rw [hk]; exact hne
      simp [setAssoc, getAssoc, hk, hne, hk']
    · simp [setAssoc, getAssoc, hk, ih]

theorem setAssoc_setAssoc_same (l : List (String × Val)) (k : String) (v : Val) :
    setAssoc (setAssoc l k v) k v = setAssoc l k v := by
  induction l with
  | nil => simp [setAssoc]
  | cons kv rest ih =>
    by_cases h : kv.1 = k
    · simp [setAssoc, h]
    · simp [setAssoc, h, ih]

theorem getAssoc_delAssoc_self (l : List (String × Val)) (k : String) :
    getAssoc (delAssoc l k) k = none := by
  induction l with
  | nil => simp [delAssoc, getAssoc]
  | cons kv rest ih =>
    by_cases h : kv.1 = k
    · simpa [delAssoc, h] using ih
    · simpa [delAssoc, getAssoc, h] using ih

/-! Preservation and lookup lemmas for the world operations. -/

theorem find?_map_invariant {α : Type} (l : List α) (f : α → α) (p : α → Bool)
    (hf : ∀ o, p (f o) = p o) :
    (l.map f).find? p = (l.find? p).map f := by
  induction l with
  | nil => rfl
  | cons o rest ih =>
    by_cases h : p o
    · rw [List.map_cons, List.find?_cons_of_pos _ (by rw [hf]; exact h),
        List.find?_cons_of_pos _ h, Option.map_some']
    · rw [List.map_cons, List.find?_cons_of_neg _ (by rw [hf]; simpa using h),
        List.find?_cons_of_neg _ (by simpa using h), ih]

theorem findObj_setMode (w : World) (n m n' : String) :
    (w.setMode n m).findObj n' =
      (w.findObj n').map (fun o => if o.name == n then { o with mode := m } else o) := by
  apply find?_map_invariant
  intro o
  by_cases h : o.name = n <;> simp [h]

theorem findOwner_setMode (w : World) (n m u : String) :
    find_armature_parent_object (w.setMode n m) u =
      (find_armature_parent_object w u).map
        (fun o => if o.name == n then { o with mode := m } else o) := by
  apply find?_map_invariant
  intro o
  by_cases h : o.name = n <;> simp [h]

theorem getMode_setMode_self (w : World) (n m : String)
    (h : (w.findObj n).isSome) : (w.setMode n m).getMode n = some m := by
  obtain ⟨o, ho⟩ := Option.isSome_iff_exists.mp h
  have hname : o.name = n := by
    have := List.find?_some ho
    simpa using this
  rw [World.getMode, findObj_setMode, ho]
  simp [hname]

theorem findObj_isSome_of_mem (w : World) (obj : BObj) (h : obj ∈ w.objects) :
    (w.findObj obj.name).isSome := by
  rw [World.findObj, List.find?_isSome]
  exact ⟨obj, h, by simp⟩

@[simp] theorem setMode_edit_bones_map (w : World) (n m : String) :
    (w.setMode n m).edit_bones_map = w.edit_bones_map := rfl

@[simp] theorem setMode_log (w : World) (n m : String) :
    (w.setMode n m).log = w.log := rfl

@[simp] theorem setMode_armatures (w : World) (n m : String) :
    (w.setMode n m).armatures = w.armatures := rfl

@[simp] theorem setMode_active (w : World) (n m : String) :
    (w.setMode n m).active = w.active := rfl

@[simp] theorem modeSetActive_edit_bones_map (w : World) (m : String) :
    (w.modeSetActive m).edit_bones_map = w.edit_bones_map := by
  cases h : w.active <;> simp [World.modeSetActive, h]

@[simp] theorem modeSetActive_log (w : World) (m : String) :
    (w.modeSetActive m).log = w.log := by
  cases h : w.active <;> simp [World.modeSetActive, h]

@[simp] theorem modeSetActive_armatures (w : World) (m : String) :
    (w.modeSetActive m).armatures = w.armatures := by
  cases h : w.active <;> simp [World.modeSetActive, h]

@[simp] theorem modeSetActive_active (w : World) (m : String) :
    (w.modeSetActive m).active = w.active := by
  cases h : w.active <;> simp [World.modeSetActive, h]

@[simp] theorem setActive_objects (w : World) (n : Option String) :
    (w.setActive n).objects = w.objects := rfl

@[simp] theorem setActive_edit_bones_map (w : World) (n : Option String) :
    (w.setActive n).edit_bones_map = w.edit_bones_map := rfl

@[simp] theorem setActive_log (w : World) (n : Option String) :
    (w.setActive n).log = w.log := rfl

@[simp] theorem setActive_armatures (w : World) (n : Option String) :
    (w.setActive n).armatures = w.armatures := rfl

@[simp] theorem write_attribute_edit_bones_map (w : World) (u k : String) (v : Val) :
    (write_attribute w u k v).edit_bones_map = w.edit_bones_map := rfl

@[simp] theorem write_attribute_log (w : World) (u k : String) (v : Val) :
    (write_attribute w u k v).log = w.log := rfl

@[simp] theorem write_attribute_objects (w : World) (u k : String) (v : Val) :
    (write_attribute w u k v).objects = w.objects := rfl

@[simp] theorem write_attribute_active (w : World) (u k : String) (v : Val) :
    (write_attribute w u k v).active = w.active := rfl

/-!
Claim theorems.
-/

/-- C2, counterexample: the claim says that `load` on a document object with no
owner still captures the ordinary attributes.  In the world below the armature
`"u"` has the ordinary attribute `("color", [1])` and no scene object
references it; `load` returns the proxy untouched, with no `"color"` binding
captured. -/
theorem claim2_cex :
    ArmatureProxy.load
      { objects := [{ name := "A", data := none, mode := "OBJECT" }],
        armatures := [{ mixer_uuid := "u", attrs := [("color", [1])], edit_bones := [1, 2] }],
        active := some "A", edit_bones_map := [], log := [] }
      { _data := [] }
      { mixer_uuid := "u", attrs := [("color", [1])], edit_bones := [1, 2] }
      false
    = Except.ok
      ({ objects := [{ name := "A", data := none, mode := "OBJECT" }],
         armatures := [{ mixer_uuid := "u", attrs := [("color", [1])], edit_bones := [1, 2] }],
         active := some "A", edit_bones_map := [], log := [] },
       { _data := [] }) := by
  decide

/-- C2, amended: when the owner resolver finds no owning object, `load` returns
immediately: the proxy is returned unchanged (no attribute, ordinary or gated,
is captured) and the world is untouched. -/
theorem claim2_no_owner_no_capture (w : World) (p : ArmatureProxy) (a : Armature)
    (bodyFails : Bool)
    (h : find_armature_parent_object w a.mixer_uuid = none) :
    ArmatureProxy.load w p a bodyFails = Except.ok (w, p) := by
  simp [ArmatureProxy.load, h]

/-- Witness for C2's amended theorem at a concrete no-owner world. -/
theorem claim2_no_owner_no_capture_witness :
    ArmatureProxy.load
      { objects := [], armatures := [], active := none, edit_bones_map := [], log := [] }
      { _data := [] }
      { mixer_uuid := "u", attrs := [], edit_bones := [] }
      false
    = Except.ok
      ({ objects := [], armatures := [], active := none, edit_bones_map := [], log := [] },
       { _data := [] }) :=
  claim2_no_owner_no_capture _ _ _ _ (by decide)

/-- C7: when the pre-save hook rejects (returns an absent document object),
`_save` produces the sentinel pair and performs no attribute write on any
document object; the pending gated-region cache is also untouched (only a
warning is logged). -/
theorem claim7_presave_reject_sentinel (w : World) (p : ArmatureProxy) :
    (ArmatureProxy._save w p none).2 = SaveResult.sentinel ∧
    (ArmatureProxy._save w p none).1.armatures = w.armatures ∧
    (ArmatureProxy._save w p none).1.edit_bones_map = w.edit_bones_map := by
  refine ⟨rfl, rfl, rfl⟩

/-- C9: when the cached gated-region entry for the referenced document object
is an empty sequence, `apply_edit_bones` returns before doing anything: the
world — in particular the live gated region, the current modes, the active
object and the cache — is unchanged. -/
theorem claim9_empty_bones_noop (w : World) (obj : BObj) (u : String)
    (writeFails : Bool)
    (hdata : obj.data = some u)
    (hcache : getAssoc w.edit_bones_map u = some []) :
    ArmatureProxy.apply_edit_bones w obj writeFails = w := by
  simp [ArmatureProxy.apply_edit_bones, hdata, hcache]

/-- Witness for C9 at a concrete world with an empty pending entry. -/
theorem claim9_empty_bones_noop_witness :
    ArmatureProxy.apply_edit_bones
      { objects := [{ name := "O", data := some "u", mode := "POSE" }],
        armatures := [{ mixer_uuid := "u", attrs := [], edit_bones := [7] }],
        active := some "O", edit_bones_map := [("u", [])], log := [] }
      { name := "O", data := some "u", mode := "POSE" }
      false
    = { objects := [{ name := "O", data := some "u", mode := "POSE" }],
        armatures := [{ mixer_uuid := "u", attrs := [], edit_bones := [7] }],
        active := some "O", edit_bones_map := [("u", [])], log := [] } :=
  claim9_empty_bones_noop _ _ "u" _ (by decide) (by decide)

/-- C10: when the passed object's data is not an Armature,
`apply_edit_bones` is a silent no-op: the world — in particular the log, the
cache and every object's mode — is unchanged. -/
theorem claim10_non_armature_noop (w : World) (obj : BObj) (writeFails : Bool)
    (hdata : obj.data = none) :
    ArmatureProxy.apply_edit_bones w obj writeFails = w := by
  simp [ArmatureProxy.apply_edit_bones, hdata]

/-- Witness for C10 at a concrete world and a non-Armature object. -/
theorem claim10_non_armature_noop_witness :
    ArmatureProxy.apply_edit_bones
      { objects := [{ name := "M", data := none, mode := "EDIT" }],
        armatures := [], active := some "M", edit_bones_map := [("u", [1])],
        log := [] }
      { name := "M", data := none, mode := "EDIT" }
      true
    = { objects := [{ name := "M", data := none, mode := "EDIT" }],
        armatures := [], active := some "M", edit_bones_map := [("u", [1])],
        log := [] } :=
  claim10_non_armature_noop _ _ _ (by decide)

/-- C3, counterexample: the claim says that after `apply_edit_bones` the cache
entry is absent if and only if the commit completed successfully.  In the
world below the entry for `"u"` is a nonempty pending value and the gated
write raises (`writeFails = true`), so the commit does not complete — yet the
`del` after the try block removes the entry anyway, and the live gated region
keeps its stale value. -/
theorem claim3_cex :
    getAssoc
      (ArmatureProxy.apply_edit_bones
        { objects := [{ name := "O", data := some "u", mode := "OBJECT" }],
          armatures := [{ mixer_uuid := "u", attrs := [], edit_bones := [9] }],
          active := some "O", edit_bones_map := [("u", [1, 2])], log := [] }
        { name := "O", data := some "u", mode := "OBJECT" }
        true).edit_bones_map "u" = none ∧
    (ArmatureProxy.apply_edit_bones
        { objects := [{ name := "O", data := some "u", mode := "OBJECT" }],
          armatures := [{ mixer_uuid := "u", attrs := [], edit_bones := [9] }],
          active := some "O", edit_bones_map := [("u", [1, 2])], log := [] }
        { name := "O", data := some "u", mode := "OBJECT" }
        true).armatures = [{ mixer_uuid := "u", attrs := [], edit_bones := [9] }] := by
  constructor <;> decide

/-- C3, amended: `apply_edit_bones` removes the pending cache entry exactly
when a write is attempted — that is, when a nonempty entry is pending —
regardless of whether the write succeeds; a missing entry stays missing and an
empty pending entry is left in the cache. -/
theorem claim3_removed_iff_nonempty_pending (w : World) (obj : BObj) (u : String)
    (writeFails : Bool) (hdata : obj.data = some u) :
    (∀ bs, getAssoc w.edit_bones_map u = some bs → bs ≠ [] →
      getAssoc (ArmatureProxy.apply_edit_bones w obj writeFails).edit_bones_map u = none) ∧
    (getAssoc w.edit_bones_map u = some [] →
      getAssoc (ArmatureProxy.apply_edit_bones w obj writeFails).edit_bones_map u = some []) ∧
    (getAssoc w.edit_bones_map u = none →
      getAssoc (ArmatureProxy.apply_edit_bones w obj writeFails).edit_bones_map u = none) := by
  refine ⟨?_, ?_, ?_⟩
  · intro bs hcache hne
    have hlen : (bs.length == 0) = false := by
      simp [List.length_eq_zero, hne]
    cases writeFails <;>
      simp [ArmatureProxy.apply_edit_bones, hdata, hcache, hlen, getAssoc_delAssoc_self]
  · intro hcache
    simp [ArmatureProxy.apply_edit_bones, hdata, hcache]
  · intro hcache
    simp [ArmatureProxy.apply_edit_bones, hdata, hcache]

/-- Witness for C3's amended theorem: a nonempty pending entry is removed even
though the write fails, and an empty pending entry survives. -/
theorem claim3_removed_iff_nonempty_pending_witness :
    getAssoc
      (ArmatureProxy.apply_edit_bones
        { objects := [{ name := "O", data := some "v", mode := "OBJECT" }],
          armatures := [{ mixer_uuid := "v", attrs := [], edit_bones := [] }],
          active := some "O", edit_bones_map := [("v", [3])], log := [] }
        { name := "O", data := some "v", mode := "OBJECT" }
        true).edit_bones_map "v" = none :=
  (claim3_removed_iff_nonempty_pending
      { objects := [{ name := "O", data := some "v", mode := "OBJECT" }],
        armatures := [{ mixer_uuid := "v", attrs := [], edit_bones := [] }],
        active := some "O", edit_bones_map := [("v", [3])], log := [] }
      { name := "O", data := some "v", mode := "OBJECT" }
      "v" true (by decide)).1 [3] (by decide) (by decide)

/-- C4, counterexample: the claim says a failing gated-region write is caught,
*logged*, and not propagated.  In the world below the write raises and the
`except Exception: pass` clause swallows it without producing any log entry:
the log is empty after the call. -/
theorem claim4_cex :
    (ArmatureProxy.apply_edit_bones
      { objects := [{ name := "O", data := some "u", mode := "OBJECT" }],
        armatures := [{ mixer_uuid := "u", attrs := [], edit_bones := [9] }],
        active := some "O", edit_bones_map := [("u", [1, 2])], log := [] }
      { name := "O", data := some "u", mode := "OBJECT" }
      true).log = [] := by
  decide

theorem findObj_setMode_isSome (w : World) (n' m n : String) :
    ((w.setMode n' m).findObj n).isSome = (w.findObj n).isSome := by
  rw [findObj_setMode]
  cases w.findObj n <;> simp

theorem findObj_modeSetActive_isSome (w : World) (m n : String) :
    ((w.modeSetActive m).findObj n).isSome = (w.findObj n).isSome := by
  cases h : w.active <;> simp [World.modeSetActive, h, findObj_setMode_isSome]

theorem contextMode_modeSetActive_self (w : World) (n m : String)
    (ha : w.active = some n) (hs : (w.findObj n).isSome) :
    (w.modeSetActive m).contextMode = m := by
  have h1 : w.modeSetActive m = w.setMode n m := by simp [World.modeSetActive, ha]
  have h2 := getMode_setMode_self w n m hs
  rw [World.getMode] at h2
  rw [h1, World.contextMode, World.activeObj, setMode_active, ha, Option.some_bind, h2]
  rfl

/-- Reduction of `apply_edit_bones` on the path where a nonempty gated-region
value is pending for the referenced armature. -/
theorem apply_edit_bones_nonempty_eq (w : World) (obj : BObj) (u : String)
    (bs : Val) (writeFails : Bool)
    (hdata : obj.data = some u)
    (hcache : getAssoc w.edit_bones_map u = some bs)
    (hne : bs ≠ []) :
    ArmatureProxy.apply_edit_bones w obj writeFails =
      (let w1 := if w.contextMode != "OBJECT" then w.modeSetActive "OBJECT" else w
       let w2 := w1.setActive (some obj.name)
       let w3 := w2.modeSetActive "EDIT"
       let w4 := if writeFails then w3 else write_attribute w3 u "edit_bones" bs
       let w5 : World := { w4 with edit_bones_map := delAssoc w4.edit_bones_map u }
       w5.modeSetActive "OBJECT") := by
  have hlen : (bs.length == 0) = false := by
    simp [List.length_eq_zero, hne]
  simp [ArmatureProxy.apply_edit_bones, hdata, hcache, hlen]

/-- C4, amended: when the gated-region write raises inside `apply_edit_bones`,
the error is caught and suppressed *silently* — no log entry is produced — it
is not propagated to the caller (the function returns normally by
construction), control still returns to the baseline `"OBJECT"` context mode,
and the live document is left unwritten. -/
theorem claim4_suppressed_silently (w : World) (obj : BObj) (u : String) (bs : Val)
    (hdata : obj.data = some u)
    (hcache : getAssoc w.edit_bones_map u = some bs)
    (hne : bs ≠ [])
    (hmem : obj ∈ w.objects) :
    (ArmatureProxy.apply_edit_bones w obj true).log = w.log ∧
    (ArmatureProxy.apply_edit_bones w obj true).contextMode = "OBJECT" ∧
    (ArmatureProxy.apply_edit_bones w obj true).armatures = w.armatures := by
  rw [apply_edit_bones_nonempty_eq w obj u bs true hdata hcache hne]
  simp only [if_pos rfl]
  refine ⟨?_, ?_, ?_⟩
  · simp only [modeSetActive_log]
    show ((if w.contextMode != "OBJECT" then w.modeSetActive "OBJECT" else w).setActive
        (some obj.name)).log = w.log
    split <;> simp
  · apply contextMode_modeSetActive_self _ obj.name "OBJECT"
    · rfl
    · show (World.findObj
        { ((if w.contextMode != "OBJECT" then w.modeSetActive "OBJECT" else w).setActive
            (some obj.name)).modeSetActive "EDIT" with
          edit_bones_map := _ } obj.name).isSome = true
      rw [show ∀ (ww : World) (eb : List (String × Val)),
            World.findObj { ww with edit_bones_map := eb } obj.name =
              ww.findObj obj.name from fun _ _ => rfl]
      rw [findObj_modeSetActive_isSome]
      rw [show ∀ (ww : World) (nn : Option String),
            World.findObj (ww.setActive nn) obj.name = ww.findObj obj.name
          from fun _ _ => rfl]
      split
      · rw [findObj_modeSetActive_isSome]
        exact findObj_isSome_of_mem w obj hmem
      · exact findObj_isSome_of_mem w obj hmem
  · simp only [modeSetActive_armatures]
    show ((if w.contextMode != "OBJECT" then w.modeSetActive "OBJECT" else w).setActive
        (some obj.name)).armatures = w.armatures
    split <;> simp

/-- Witness for C4's amended theorem at a concrete failing write. -/
theorem claim4_suppressed_silently_witness :
    (ArmatureProxy.apply_edit_bones
      { objects := [{ name := "O", data := some "u", mode := "POSE" }],
        armatures := [{ mixer_uuid := "u", attrs := [], edit_bones := [9] }],
        active := some "O", edit_bones_map := [("u", [1, 2])], log := [] }
      { name := "O", data := some "u", mode := "POSE" }
      true).log = [] ∧
    (ArmatureProxy.apply_edit_bones
      { objects := [{ name := "O", data := some "u", mode := "POSE" }],
        armatures := [{ mixer_uuid := "u", attrs := [], edit_bones := [9] }],
        active := some "O", edit_bones_map := [("u", [1, 2])], log := [] }
      { name := "O", data := some "u", mode := "POSE" }
      true).contextMode = "OBJECT" ∧
    (ArmatureProxy.apply_edit_bones
      { objects := [{ name := "O", data := some "u", mode := "POSE" }],
        armatures := [{ mixer_uuid := "u", attrs := [], edit_bones := [9] }],
        active := some "O", edit_bones_map := [("u", [1, 2])], log := [] }
      { name := "O", data := some "u", mode := "POSE" }
      true).armatures = [{ mixer_uuid := "u", attrs := [], edit_bones := [9] }] :=
  claim4_suppressed_silently
    { objects := [{ name := "O", data := some "u", mode := "POSE" }],
      armatures := [{ mixer_uuid := "u", attrs := [], edit_bones := [9] }],
      active := some "O", edit_bones_map := [("u", [1, 2])], log := [] }
    { name := "O", data := some "u", mode := "POSE" }
    "u" [1, 2] (by decide) (by decide) (by decide) (by decide)

/-- C1, counterexample: the claim says that when the delegated body of a
mode-guarded operation raises, the owner's mode and the prior active selection
are restored before the error propagates.  In the world below the owner `"O"`
is in `"POSE"` mode and the previously active object is `"A"`; when the
delegated `super().apply` raises, the error propagates with `"O"` left in
`"EDIT"` mode and still the active object — nothing is restored (the source
has no try/finally around the delegated call). -/
theorem claim1_cex :
    ArmatureProxy.apply
      { objects := [{ name := "A", data := none, mode := "OBJECT" },
                    { name := "O", data := some "u", mode := "POSE" }],
        armatures := [{ mixer_uuid := "u", attrs := [], edit_bones := [1] }],
        active := some "A", edit_bones_map := [], log := [] }
      { _data := [] } "u" { key := "k", value := [1] } true true
    = Except.error
      { objects := [{ name := "A", data := none, mode := "OBJECT" },
                    { name := "O", data := some "u", mode := "EDIT" }],
        armatures := [{ mixer_uuid := "u", attrs := [], edit_bones := [1] }],
        active := some "O", edit_bones_map := [], log := [] } := by
  decide

/-- C5: the claim's first half holds on this input — `load` captures the gated
region equal to the live `edit_bones` value `[1, 2]` — but its second half
fails: the owner `"O"` enters in `"POSE"` mode while the previously active
object `"A"` is in `"OBJECT"` mode; `load` records `ctx["mode"]` from the
copied context (the mode of `"A"`, not of the owner it is about to switch)
and "restores" the owner to `"OBJECT"`.  The code's own intent (docstring
"switch between current mode and edit mode", the variable `previous_mode`,
and the correct per-object save/restore in `_diff` and `apply`) is to restore
the owner's own prior mode, so this is a slip in the code. -/
theorem claim5_mode_restore_bug :
    ArmatureProxy.load
      { objects := [{ name := "A", data := none, mode := "OBJECT" },
                    { name := "O", data := some "u", mode := "POSE" }],
        armatures := [{ mixer_uuid := "u", attrs := [("n", [5])], edit_bones := [1, 2] }],
        active := some "A", edit_bones_map := [], log := [] }
      { _data := [] }
      { mixer_uuid := "u", attrs := [("n", [5])], edit_bones := [1, 2] }
      false
    = Except.ok
      ({ objects := [{ name := "A", data := none, mode := "OBJECT" },
                     { name := "O", data := some "u", mode := "OBJECT" }],
         armatures := [{ mixer_uuid := "u", attrs := [("n", [5])], edit_bones := [1, 2] }],
         active := some "A", edit_bones_map := [], log := [] },
       { _data := [("edit_bones", [1, 2]), ("n", [5])] }) := by
  decide

/-! Lemmas about the write-back fold of `_save`. -/

theorem save_some_eq (w : World) (p : ArmatureProxy) (u : String) :
    ArmatureProxy._save w p (some u) = (p._data.foldl (saveStep u) w, SaveResult.ok u) := rfl

theorem findArm_write (w : World) (u k : String) (v : Val) (u' : String) :
    (write_attribute w u k v).findArm u' =
      (w.findArm u').map (fun a =>
        if a.mixer_uuid == u then
          if k == "edit_bones" then { a with edit_bones := v }
          else { a with attrs := setAssoc a.attrs k v }
        else a) := by
  apply find?_map_invariant w.armatures
  intro a
  by_cases h : a.mixer_uuid = u
  · by_cases h2 : k = "edit_bones" <;> simp [h, h2]
  · simp [h]

theorem findArm_set_map (w : World) (x : List (String × Val)) (u : String) :
    World.findArm { w with edit_bones_map := x } u = w.findArm u := rfl

theorem findArm_write_isSome (w : World) (u k : String) (v : Val) (u' : String) :
    ((write_attribute w u k v).findArm u').isSome = (w.findArm u').isSome := by
  rw [findArm_write]
  cases w.findArm u' <;> simp

theorem getAttr_write_self (w : World) (u k : String) (v : Val)
    (hk : ¬ k = "edit_bones") (hs : (w.findArm u).isSome) :
    getAttr (write_attribute w u k v) u k = some v := by
  obtain ⟨a, ha⟩ := Option.isSome_iff_exists.mp hs
  have hu : a.mixer_uuid = u := by simpa using List.find?_some ha
  rw [getAttr, findArm_write, ha]
  simp [hu, hk, getAssoc_setAssoc_self]

theorem getAttr_write_ne (w : World) (u k k' : String) (v : Val) (h : ¬ k' = k) :
    getAttr (write_attribute w u k v) u k' = getAttr w u k' := by
  rw [getAttr, getAttr, findArm_write]
  cases hfa : w.findArm u with
  | none => simp
  | some a =>
    by_cases hu : a.mixer_uuid = u
    · by_cases hk : k = "edit_bones"
      · simp [hu, hk]
      · simp [hu, hk, getAssoc_setAssoc_ne _ _ _ _ h]
    · simp [hu]

theorem saveStep_eq_write (u : String) (w : World) (kv : String × Val)
    (h : ¬ kv.1 = "edit_bones") : saveStep u w kv = write_attribute w u kv.1 kv.2 := by
  simp [saveStep, h]

theorem saveStep_eq_stash (u : String) (w : World) (kv : String × Val)
    (h : kv.1 = "edit_bones") :
    saveStep u w kv = { w with edit_bones_map := setAssoc w.edit_bones_map u kv.2 } := by
  simp [saveStep, h]

theorem foldl_saveStep_isSome (u : String) :
    ∀ (l : List (String × Val)) (w : World) (u' : String),
      ((l.foldl (saveStep u) w).findArm u').isSome = (w.findArm u').isSome := by
  intro l
  induction l with
  | nil => intro w u'; rfl
  | cons kv tl ih =>
    intro w u'
    rw [List.foldl_cons, ih]
    by_cases h : kv.1 = "edit_bones"
    · rw [saveStep_eq_stash u w kv h, findArm_set_map]
    · rw [saveStep_eq_write u w kv h, findArm_write_isSome]

theorem foldl_saveStep_edit_bones (u : String) :
    ∀ (l : List (String × Val)) (w : World) (u' : String),
      ((l.foldl (saveStep u) w).findArm u').map (fun a => a.edit_bones) =
        (w.findArm u').map (fun a => a.edit_bones) := by
  intro l
  induction l with
  | nil => intro w u'; rfl
  | cons kv tl ih =>
    intro w u'
    rw [List.foldl_cons, ih]
    by_cases h : kv.1 = "edit_bones"
    · rw [saveStep_eq_stash u w kv h, findArm_set_map]
    · rw [saveStep_eq_write u w kv h, findArm_write]
      cases hfa : w.findArm u' with
      | none => rfl
      | some a =>
        by_cases hu : a.mixer_uuid = u
        · simp [hu, h]
        · simp [hu]

theorem foldl_saveStep_getAttr_of_not_mem (u : String) :
    ∀ (l : List (String × Val)) (w : World) (k : String),
      (∀ kv ∈ l, kv.1 ≠ k) →
      getAttr (l.foldl (saveStep u) w) u k = getAttr w u k := by
  intro l
  induction l with
  | nil => intro w k _; rfl
  | cons kv tl ih =>
    intro w k h
    rw [List.foldl_cons, ih _ _ (fun kv' hm => h kv' (List.mem_cons_of_mem _ hm))]
    by_cases hh : kv.1 = "edit_bones"
    · rw [saveStep_eq_stash u w kv hh, getAttr, getAttr, findArm_set_map]
    · rw [saveStep_eq_write u w kv hh]
      exact getAttr_write_ne w u kv.1 k kv.2
        (fun he => h kv (List.mem_cons_self _ _) he.symm)

theorem foldl_saveStep_map_no_eb (u : String) :
    ∀ (l : List (String × Val)) (w : World),
      (∀ kv ∈ l, kv.1 ≠ "edit_bones") →
      (l.foldl (saveStep u) w).edit_bones_map = w.edit_bones_map := by
  intro l
  induction l with
  | nil => intro w _; rfl
  | cons kv tl ih =>
    intro w h
    rw [List.foldl_cons, saveStep_eq_write u w kv (h kv (List.mem_cons_self _ _)),
      ih _ (fun kv' hm => h kv' (List.mem_cons_of_mem _ hm))]
    rfl

theorem foldl_saveStep_written (u : String) (kv : String × Val)
    (hk : kv.1 ≠ "edit_bones") :
    ∀ (l : List (String × Val)) (w : World), kv ∈ l →
      (l.map Prod.fst).Nodup → (w.findArm u).isSome →
      getAttr (l.foldl (saveStep u) w) u kv.1 = some kv.2 := by
  intro l
  induction l with
  | nil => intro w hm; cases hm
  | cons hd tl ih =>
    intro w hm hnd hs
    rw [List.map_cons, List.nodup_cons] at hnd
    rcases List.mem_cons.mp hm with heq | hmem
    · subst heq
      rw [List.foldl_cons, saveStep_eq_write u w kv hk,
        foldl_saveStep_getAttr_of_not_mem u tl _ kv.1
          (fun kv' hm' he => hnd.1 (he ▸ List.mem_map_of_mem Prod.fst hm'))]
      exact getAttr_write_self _ _ _ _ hk hs
    · rw [List.foldl_cons]
      apply ih _ hmem hnd.2
      by_cases hh : hd.1 = "edit_bones"
      · rw [saveStep_eq_stash u w hd hh]
        rw [show (World.findArm { w with edit_bones_map := setAssoc w.edit_bones_map u hd.2 } u)
            = w.findArm u from rfl]
        exact hs
      · rw [saveStep_eq_write u w hd hh, findArm_write_isSome]
        exact hs

theorem foldl_saveStep_map (u : String) :
    ∀ (l : List (String × Val)) (w : World), (l.map Prod.fst).Nodup →
      getAssoc (l.foldl (saveStep u) w).edit_bones_map u =
        (match getAssoc l "edit_bones" with
         | some v => some v
         | none => getAssoc w.edit_bones_map u) := by
  intro l
  induction l with
  | nil => intro w _; rfl
  | cons hd tl ih =>
    intro w hnd
    rw [List.map_cons, List.nodup_cons] at hnd
    by_cases hh : hd.1 = "edit_bones"
    · rw [List.foldl_cons, saveStep_eq_stash u w hd hh,
        foldl_saveStep_map_no_eb u tl _
          (fun kv' hm' he => hnd.1 (hh ▸ he ▸ List.mem_map_of_mem Prod.fst hm'))]
      rw [show (World.edit_bones_map
          { w with edit_bones_map := setAssoc w.edit_bones_map u hd.2 })
          = setAssoc w.edit_bones_map u hd.2 from rfl]
      rw [getAssoc_setAssoc_self]
      simp [getAssoc, hh]
    · rw [List.foldl_cons, saveStep_eq_write u w hd hh, ih _ hnd.2]
      rw [show getAssoc (hd :: tl) "edit_bones" = getAssoc tl "edit_bones" by
        rw [getAssoc, if_neg (by simpa using hh)]]
      cases getAssoc tl "edit_bones" <;> rfl

theorem getAssoc_none_keys (k : String) :
    ∀ (l : List (String × Val)), getAssoc l k = none → ∀ kv ∈ l, kv.1 ≠ k := by
  intro l
  induction l with
  | nil => intro _ kv hm; cases hm
  | cons hd tl ih =>
    intro h kv hm
    by_cases hh : hd.1 = k
    · rw [getAssoc, if_pos (by simpa using hh)] at h
      cases h
    · rw [getAssoc, if_neg (by simpa using hh)] at h
      rcases List.mem_cons.mp hm with heq | hmem
      · rw [heq]; exact hh
      · exact ih h kv hmem

/-- C6: on a successful save, every captured attribute except the gated region
is written back to the document via the attribute-write path; the gated-region
value is not written to the document (the live `edit_bones` is unchanged) but
is stashed in the class-level cache under the document object's identity
token (when the proxy captured no gated region, the cache is untouched). -/
theorem claim6_save_writes_and_stashes (w : World) (p : ArmatureProxy)
    (u : String) (a : Armature)
    (harm : w.findArm u = some a)
    (hnd : (p._data.map Prod.fst).Nodup) :
    (ArmatureProxy._save w p (some u)).2 = SaveResult.ok u ∧
    (∀ kv ∈ p._data, kv.1 ≠ "edit_bones" →
      getAttr (ArmatureProxy._save w p (some u)).1 u kv.1 = some kv.2) ∧
    ((ArmatureProxy._save w p (some u)).1.findArm u).map (fun a' => a'.edit_bones)
      = some a.edit_bones ∧
    (∀ v, getAssoc p._data "edit_bones" = some v →
      getAssoc (ArmatureProxy._save w p (some u)).1.edit_bones_map u = some v) ∧
    (getAssoc p._data "edit_bones" = none →
      (ArmatureProxy._save w p (some u)).1.edit_bones_map = w.edit_bones_map) := by
  rw [save_some_eq]
  refine ⟨rfl, ?_, ?_, ?_, ?_⟩
  · intro kv hm hk
    exact foldl_saveStep_written u kv hk p._data w hm hnd (by rw [harm]; rfl)
  · rw [foldl_saveStep_edit_bones, harm]
    rfl
  · intro v hv
    rw [foldl_saveStep_map u p._data w hnd, hv]
  · intro hnone
    exact foldl_saveStep_map_no_eb u p._data w (getAssoc_none_keys _ _ hnone)

/-- Witness for C6 at a concrete proxy holding one ordinary attribute and a
captured gated region. -/
theorem claim6_save_writes_and_stashes_witness :
    (ArmatureProxy._save
      { objects := [], armatures := [{ mixer_uuid := "u", attrs := [], edit_bones := [9] }],
        active := none, edit_bones_map := [], log := [] }
      { _data := [("n", [5]), ("edit_bones", [1, 2])] } (some "u")).2 = SaveResult.ok "u" ∧
    getAttr
      (ArmatureProxy._save
        { objects := [], armatures := [{ mixer_uuid := "u", attrs := [], edit_bones := [9] }],
          active := none, edit_bones_map := [], log := [] }
        { _data := [("n", [5]), ("edit_bones", [1, 2])] } (some "u")).1 "u" "n" = some [5] ∧
    getAssoc
      (ArmatureProxy._save
        { objects := [], armatures := [{ mixer_uuid := "u", attrs := [], edit_bones := [9] }],
          active := none, edit_bones_map := [], log := [] }
        { _data := [("n", [5]), ("edit_bones", [1, 2])] } (some "u")).1.edit_bones_map "u"
      = some [1, 2] ∧
    ((ArmatureProxy._save
        { objects := [], armatures := [{ mixer_uuid := "u", attrs := [], edit_bones := [9] }],
          active := none, edit_bones_map := [], log := [] }
        { _data := [("n", [5]), ("edit_bones", [1, 2])] } (some "u")).1.findArm "u").map
      (fun a' => a'.edit_bones) = some [9] := by
  have h := claim6_save_writes_and_stashes
    { objects := [], armatures := [{ mixer_uuid := "u", attrs := [], edit_bones := [9] }],
      active := none, edit_bones_map := [], log := [] }
    { _data := [("n", [5]), ("edit_bones", [1, 2])] } "u"
    { mixer_uuid := "u", attrs := [], edit_bones := [9] }
    (by decide) (by decide)
  exact ⟨h.1, h.2.1 ("n", [5]) (by decide) (by decide), h.2.2.2.1 [1, 2] (by decide), h.2.2.1⟩

/-! Lemmas for the mode bracket of `apply`: on the success path the bracket
restores every object's mode and the active selection exactly. -/

theorem World.ext' (w1 w2 : World) (h1 : w1.objects = w2.objects)
    (h2 : w1.armatures = w2.armatures) (h3 : w1.active = w2.active)
    (h4 : w1.edit_bones_map = w2.edit_bones_map) (h5 : w1.log = w2.log) :
    w1 = w2 := by
  cases w1
  cases w2
  simp_all

theorem map_setModeF_collapse (objs : List BObj) (n m m' : String) :
    (objs.map (fun o => if o.name == n then { o with mode := m } else o)).map
      (fun o => if o.name == n then { o with mode := m' } else o)
    = objs.map (fun o => if o.name == n then { o with mode := m' } else o) := by
  rw [List.map_map]
  apply List.map_congr_left
  intro o _
  by_cases h : o.name = n <;> simp [Function.comp, h]

theorem map_setModeF_id (objs : List BObj) (x : BObj) (hx : x ∈ objs)
    (hnames : (objs.map (fun o => o.name)).Nodup) :
    objs.map (fun o => if o.name == x.name then { o with mode := x.mode } else o) = objs := by
  have hinj := List.inj_on_of_nodup_map hnames
  conv_rhs => rw [← List.map_id objs]
  apply List.map_congr_left
  intro o ho
  by_cases h : o.name = x.name
  · have hox : o = x := hinj ho hx h
    subst hox
    simp
  · simp [h]

theorem map_writeF_idem (arms : List Armature) (u k : String) (v : Val) :
    ((arms.map (fun a =>
        if a.mixer_uuid == u then
          if k == "edit_bones" then { a with edit_bones := v }
          else { a with attrs := setAssoc a.attrs k v }
        else a)).map (fun a =>
        if a.mixer_uuid == u then
          if k == "edit_bones" then { a with edit_bones := v }
          else { a with attrs := setAssoc a.attrs k v }
        else a))
    = arms.map (fun a =>
        if a.mixer_uuid == u then
          if k == "edit_bones" then { a with edit_bones := v }
          else { a with attrs := setAssoc a.attrs k v }
        else a) := by
  rw [List.map_map]
  apply List.map_congr_left
  intro a _
  by_cases h : a.mixer_uuid = u
  · by_cases h2 : k = "edit_bones"
    · simp [Function.comp, h, h2]
    · simp [Function.comp, h, h2, setAssoc_setAssoc_same]
  · simp [Function.comp, h]

/-- Closed form of `ArmatureProxy.apply` on the success path: the mode bracket
restores every object's mode and the active selection exactly, so the call
only applies the delta to the proxy and (when `to_blender`) to the armature. -/
theorem apply_ok_eq (w : World) (p : ArmatureProxy) (u : String) (delta : Delta)
    (to_blender : Bool) (nA : String) (A obj : BObj)
    (ha : w.active = some nA)
    (hA : w.findObj nA = some A)
    (hfind : find_armature_parent_object w u = some obj)
    (hnames : (w.objects.map (fun o => o.name)).Nodup) :
    ArmatureProxy.apply w p u delta to_blender false =
      Except.ok
        ({ w with armatures :=
            if to_blender then (write_attribute w u delta.key delta.value).armatures
            else w.armatures },
         { _data := setAssoc p._data delta.key delta.value }) := by
  have hactObj : w.activeObj = some A := by
    rw [World.activeObj, ha, Option.some_bind, hA]
  have hmemObj : obj ∈ w.objects := List.mem_of_find?_eq_some hfind
  have hmemA : A ∈ w.objects := List.mem_of_find?_eq_some hA
  have hAname : A.name = nA := by simpa using List.find?_some hA
  simp only [ArmatureProxy.apply, hactObj, hfind, baseApply, ha, Bool.false_eq_true,
    if_false, World.setActive, World.modeSetActive, World.setMode]
  cases to_blender with
  | false =>
    simp only [Bool.false_eq_true, if_false]
    refine congrArg Except.ok (Prod.ext ?_ rfl)
    refine World.ext' _ _ ?_ rfl rfl rfl rfl
    show ((w.objects.map _).map _).map _ = w.objects
    rw [map_setModeF_collapse, map_setModeF_id w.objects obj hmemObj hnames,
      ← hAname, map_setModeF_id w.objects A hmemA hnames]
  | true =>
    simp only [if_true, write_attribute]
    refine congrArg Except.ok (Prod.ext ?_ rfl)
    refine World.ext' _ _ ?_ rfl rfl rfl rfl
    show ((w.objects.map _).map _).map _ = w.objects
    rw [map_setModeF_collapse, map_setModeF_id w.objects obj hmemObj hnames,
      ← hAname, map_setModeF_id w.objects A hmemA hnames]

/-- C8 (the generic base `apply` is modelled from the spec, which stipulates
that applying a Delta makes the target match it): applying the same Delta
twice through `ArmatureProxy.apply` yields the same end state as applying it
once — the first application returns a world/proxy pair and the second
application, run from that pair, returns it unchanged, for both values of
`write_through`. -/
theorem claim8_apply_idempotent (w : World) (p : ArmatureProxy) (u : String)
    (delta : Delta) (to_blender : Bool) (nA : String) (A obj : BObj)
    (ha : w.active = some nA)
    (hA : w.findObj nA = some A)
    (hfind : find_armature_parent_object w u = some obj)
    (hnames : (w.objects.map (fun o => o.name)).Nodup) :
    ∃ w1 p1,
      ArmatureProxy.apply w p u delta to_blender false = Except.ok (w1, p1) ∧
      ArmatureProxy.apply w1 p1 u delta to_blender false = Except.ok (w1, p1) := by
  have happly : ∀ (X : List Armature) (q : ArmatureProxy),
      ArmatureProxy.apply { w with armatures := X } q u delta to_blender false =
        Except.ok
          ({ w with armatures :=
              if to_blender
              then (write_attribute { w with armatures := X } u delta.key delta.value).armatures
              else X },
           { _data := setAssoc q._data delta.key delta.value }) :=
    fun X q => apply_ok_eq { w with armatures := X } q u delta to_blender nA A obj ha hA hfind hnames
  refine ⟨_, _, apply_ok_eq w p u delta to_blender nA A obj ha hA hfind hnames, ?_⟩
  rw [happly]
  refine congrArg Except.ok (Prod.ext ?_ ?_)
  · refine World.ext' _ _ rfl ?_ rfl rfl rfl
    cases to_blender with
    | false => rfl
    | true =>
      show (write_attribute
          { w with armatures := (write_attribute w u delta.key delta.value).armatures }
          u delta.key delta.value).armatures =
        (write_attribute w u delta.key delta.value).armatures
      rw [write_attribute, write_attribute]
      exact map_writeF_idem w.armatures u delta.key delta.value
  · show ArmatureProxy.mk (setAssoc (setAssoc p._data delta.key delta.value)
      delta.key delta.value) = ArmatureProxy.mk (setAssoc p._data delta.key delta.value)
    rw [setAssoc_setAssoc_same]

/-- Witness for C8 at a concrete world, proxy and delta (with write-through). -/
theorem claim8_apply_idempotent_witness :
    ∃ w1 p1,
      ArmatureProxy.apply
        { objects := [{ name := "A", data := none, mode := "OBJECT" },
                      { name := "O", data := some "u", mode := "POSE" }],
          armatures := [{ mixer_uuid := "u", attrs := [("n", [5])], edit_bones := [1] }],
          active := some "A", edit_bones_map := [], log := [] }
        { _data := [("n", [5])] } "u" { key := "n", value := [6] } true false
        = Except.ok (w1, p1) ∧
      ArmatureProxy.apply w1 p1 "u" { key := "n", value := [6] } true false
        = Except.ok (w1, p1) :=
  claim8_apply_idempotent
    { objects := [{ name := "A", data := none, mode := "OBJECT" },
                  { name := "O", data := some "u", mode := "POSE" }],
      armatures := [{ mixer_uuid := "u", attrs := [("n", [5])], edit_bones := [1] }],
      active := some "A", edit_bones_map := [], log := [] }
    { _data := [("n", [5])] } "u" { key := "n", value := [6] } true
    "A" { name := "A", data := none, mode := "OBJECT" }
    { name := "O", data := some "u", mode := "POSE" }
    (by decide) (by decide) (by decide) (by decide)

/-- Closed form of `ArmatureProxy._diff` on the success path: the comparison is
read-only and the mode bracket restores every object's mode and the active
selection exactly, so the world comes back unchanged. -/
theorem diff_ok_eq (w : World) (p : ArmatureProxy) (a : Armature) (key : String)
    (nA : String) (A obj : BObj)
    (ha : w.active = some nA)
    (hA : w.findObj nA = some A)
    (hfind : find_armature_parent_object w a.mixer_uuid = some obj)
    (hnames : (w.objects.map (fun o => o.name)).Nodup) :
    ArmatureProxy._diff w p a key false =
      Except.ok
        (w, baseDiff ((w.setActive (some obj.name)).setMode obj.name "EDIT") a p key) := by
  have hactObj : w.activeObj = some A := by
    rw [World.activeObj, ha, Option.some_bind, hA]
  have hmemObj : obj ∈ w.objects := List.mem_of_find?_eq_some hfind
  have hmemA : A ∈ w.objects := List.mem_of_find?_eq_some hA
  have hAname : A.name = nA := by simpa using List.find?_some hA
  simp only [ArmatureProxy._diff, hactObj, hfind, ha, Bool.false_eq_true, if_false,
    World.setActive, World.modeSetActive, World.setMode]
  refine congrArg Except.ok (Prod.ext ?_ rfl)
  refine World.ext' _ _ ?_ rfl ?_ rfl rfl
  · show ((w.objects.map _).map _).map _ = w.objects
    rw [map_setModeF_collapse, map_setModeF_id w.objects obj hmemObj hnames,
      ← hAname, map_setModeF_id w.objects A hmemA hnames]
  · exact ha.symm

/-- C1, amended: restoration of the owner's mode and the prior active
selection happens only on the normal exit path of the mode-guarded
operations, never on the failure path: when the delegated body of `load`,
`_diff` or `apply` raises, the error propagates with nothing restored — the
owner is left in the gated `"EDIT"` mode and (for `_diff` and `apply`) is
left as the active object.  On normal return, `_diff` and `apply` do restore
every object's mode and the prior active selection exactly (`_diff` returns
the world unchanged; `apply` changes armature data only); `load`'s
normal-return restore writes the context-recorded mode rather than the
owner's own prior mode, a separate defect (established under the C5
analysis), so no normal-return restoration is asserted here for `load`. -/
theorem claim1_restore_normal_path_only (w : World) (p : ArmatureProxy)
    (a : Armature) (key : String) (delta : Delta) (to_blender : Bool)
    (nA : String) (A obj : BObj)
    (ha : w.active = some nA)
    (hA : w.findObj nA = some A)
    (hfind : find_armature_parent_object w a.mixer_uuid = some obj)
    (hnames : (w.objects.map (fun o => o.name)).Nodup) :
    (∃ w', ArmatureProxy.load w p a true = Except.error w' ∧
      w'.getMode obj.name = some "EDIT") ∧
    (∃ w', ArmatureProxy._diff w p a key true = Except.error w' ∧
      w'.getMode obj.name = some "EDIT" ∧ w'.active = some obj.name) ∧
    (∃ w', ArmatureProxy.apply w p a.mixer_uuid delta to_blender true = Except.error w' ∧
      w'.getMode obj.name = some "EDIT" ∧ w'.active = some obj.name) ∧
    (∃ res, ArmatureProxy._diff w p a key false = Except.ok (w, res)) ∧
    (∃ w1 p1, ArmatureProxy.apply w p a.mixer_uuid delta to_blender false
        = Except.ok (w1, p1) ∧ w1.objects = w.objects ∧ w1.active = w.active) := by
  have hact : (w.activeObj).isSome := by
    rw [World.activeObj, ha, Option.some_bind, hA]
    rfl
  have hmem : obj ∈ w.objects := List.mem_of_find?_eq_some hfind
  have hsome : (w.findObj obj.name).isSome := findObj_isSome_of_mem w obj hmem
  obtain ⟨pa, hpa⟩ := Option.isSome_iff_exists.mp hact
  refine ⟨⟨w.setMode obj.name "EDIT", ?_, ?_⟩,
    ⟨(w.setActive (some obj.name)).setMode obj.name "EDIT", ?_, ?_, ?_⟩,
    ⟨(w.setActive (some obj.name)).setMode obj.name "EDIT", ?_, ?_, ?_⟩,
    ⟨_, diff_ok_eq w p a key nA A obj ha hA hfind hnames⟩,
    ⟨_, _, apply_ok_eq w p a.mixer_uuid delta to_blender nA A obj ha hA hfind hnames,
      rfl, rfl⟩⟩
  · simp [ArmatureProxy.load, hfind, modeSetCtx]
  · exact getMode_setMode_self w obj.name "EDIT" hsome
  · simp [ArmatureProxy._diff, hpa, hfind, World.modeSetActive, World.setActive]
  · exact getMode_setMode_self (w.setActive (some obj.name)) obj.name "EDIT" hsome
  · rfl
  · simp [ArmatureProxy.apply, hpa, hfind, World.modeSetActive, World.setActive]
  · exact getMode_setMode_self (w.setActive (some obj.name)) obj.name "EDIT" hsome
  · rfl

/-- Witness for C1's amended theorem at a concrete world (owner `"O"` in POSE
mode, active object `"A"` in OBJECT mode). -/
theorem claim1_restore_normal_path_only_witness :
    (∃ w', ArmatureProxy.load
        { objects := [{ name := "A", data := none, mode := "OBJECT" },
                      { name := "O", data := some "u", mode := "POSE" }],
          armatures := [{ mixer_uuid := "u", attrs := [], edit_bones := [1] }],
          active := some "A", edit_bones_map := [], log := [] }
        { _data := [] }
        { mixer_uuid := "u", attrs := [], edit_bones := [1] } true = Except.error w' ∧
      w'.getMode "O" = some "EDIT") ∧
    (∃ w', ArmatureProxy._diff
        { objects := [{ name := "A", data := none, mode := "OBJECT" },
                      { name := "O", data := some "u", mode := "POSE" }],
          armatures := [{ mixer_uuid := "u", attrs := [], edit_bones := [1] }],
          active := some "A", edit_bones_map := [], log := [] }
        { _data := [] }
        { mixer_uuid := "u", attrs := [], edit_bones := [1] } "k" true = Except.error w' ∧
      w'.getMode "O" = some "EDIT" ∧ w'.active = some "O") ∧
    (∃ w', ArmatureProxy.apply
        { objects := [{ name := "A", data := none, mode := "OBJECT" },
                      { name := "O", data := some "u", mode := "POSE" }],
          armatures := [{ mixer_uuid := "u", attrs := [], edit_bones := [1] }],
          active := some "A", edit_bones_map := [], log := [] }
        { _data := [] } "u" { key := "k", value := [1] } true true = Except.error w' ∧
      w'.getMode "O" = some "EDIT" ∧ w'.active = some "O") ∧
    (∃ res, ArmatureProxy._diff
        { objects := [{ name := "A", data := none, mode := "OBJECT" },
                      { name := "O", data := some "u", mode := "POSE" }],
          armatures := [{ mixer_uuid := "u", attrs := [], edit_bones := [1] }],
          active := some "A", edit_bones_map := [], log := [] }
        { _data := [] }
        { mixer_uuid := "u", attrs := [], edit_bones := [1] } "k" false
        = Except.ok
          ({ objects := [{ name := "A", data := none, mode := "OBJECT" },
                         { name := "O", data := some "u", mode := "POSE" }],
             armatures := [{ mixer_uuid := "u", attrs := [], edit_bones := [1] }],
             active := some "A", edit_bones_map := [], log := [] }, res)) ∧
    (∃ w1 p1, ArmatureProxy.apply
        { objects := [{ name := "A", data := none, mode := "OBJECT" },
                      { name := "O", data := some "u", mode := "POSE" }],
          armatures := [{ mixer_uuid := "u", attrs := [], edit_bones := [1] }],
          active := some "A", edit_bones_map := [], log := [] }
        { _data := [] } "u" { key := "k", value := [1] } true false
        = Except.ok (w1, p1) ∧
      w1.objects = [{ name := "A", data := none, mode := "OBJECT" },
                    { name := "O", data := some "u", mode := "POSE" }] ∧
      w1.active = some "A") :=
  claim1_restore_normal_path_only
    { objects := [{ name := "A", data := none, mode := "OBJECT" },
                  { name := "O", data := some "u", mode := "POSE" }],
      armatures := [{ mixer_uuid := "u", attrs := [], edit_bones := [1] }],
      active := some "A", edit_bones_map := [], log := [] }
    { _data := [] }
    { mixer_uuid := "u", attrs := [], edit_bones := [1] }
    "k" { key := "k", value := [1] } true
    "A" { name := "A", data := none, mode := "OBJECT" }
    { name := "O", data := some "u", mode := "POSE" }
    (by decide) (by decide) (by decide) (by decide)

end Mixer
